import Mathlib

/-!
A verification development for a retrieval-augmented defect-RCA pipeline.

The program maps a free-text defect description to a stored defect, its
solution, a generated explanation and a set of structured test cases.  Two
script variants exist: a text-output variant (labelled free-text test cases)
and a JSON-output variant (test cases as JSON objects).  External services
(the embedding index, the similarity gate built on it, and the language
model) are modelled as oracle parameters; the mutable persisted test-case
table is threaded explicitly; Python exceptions are modelled with `Except`.
-/

set_option maxRecDepth 4096

/-- A stored test case: one row of the persisted test-case table
(columns Module, Test_Scenario, Test_Steps, Pre_Requisite,
Pass_Fail_Criteria, Expected_Result). -/
structure TestCase where
  module : String
  test_Scenario : String
  test_Steps : String
  pre_Requisite : String
  pass_Fail_Criteria : String
  expected_Result : String
deriving DecidableEq, Repr

/-- The duplicate test wired into `save_new_test_cases`: the pandas mask
compares all six columns of a stored row against the candidate case. -/
def isDuplicateOf (r c : TestCase) : Bool :=
  r.module == c.module && r.test_Scenario == c.test_Scenario &&
  r.test_Steps == c.test_Steps && r.pre_Requisite == c.pre_Requisite &&
  r.pass_Fail_Criteria == c.pass_Fail_Criteria && r.expected_Result == c.expected_Result

/-- `save_new_test_cases`: for each incoming case, filter the current table
for rows agreeing on all six fields; keep the case only when that filter is
empty; then append all kept cases at once (the table is not updated between
checks, exactly as in the source, which builds `rows_to_add` in a loop over
the unchanged global dataframe and concatenates at the end). -/
def save_new_test_cases (table new_cases : List TestCase) : List TestCase :=
  table ++ new_cases.filter fun c => (table.filter fun r => isDuplicateOf r c).isEmpty

/-- Agreement on all six columns is exactly record equality, since a
`TestCase` consists of precisely those six fields. -/
theorem isDuplicateOf_iff (r c : TestCase) : isDuplicateOf r c = true ↔ r = c := by
  cases r; cases c
  simp [isDuplicateOf, TestCase.mk.injEq, and_assoc]

/-- The emptiness test on the filtered table holds iff the candidate case is
not already a row of the table. -/
theorem dupCheck_iff (table : List TestCase) (c : TestCase) :
    ((table.filter fun r => isDuplicateOf r c).isEmpty = true) ↔ c ∉ table := by
  rw [List.isEmpty_iff, List.filter_eq_nil_iff]
  constructor
  · intro h hc
    exact h c hc (by simp [isDuplicateOf_iff])
  · intro h r hr hdup
    exact h ((isDuplicateOf_iff r c).mp (by simpa using hdup) ▸ hr)

/-- Unfolding of `save_new_test_cases` used throughout. -/
theorem save_new_test_cases_def (table new_cases : List TestCase) :
    save_new_test_cases table new_cases =
      table ++ new_cases.filter fun c => decide (c ∉ table) := by
  unfold save_new_test_cases
  congr 1
  apply List.filter_congr
  intro c _
  by_cases h : c ∈ table
  · rw [decide_eq_false (not_not.mpr h)]
    exact Bool.eq_false_iff.mpr fun he => (dupCheck_iff table c).mp he h
  · rw [decide_eq_true h]
    exact (dupCheck_iff table c).mpr h

/-- A concrete case used in the duplication counterexample. -/
def caseC2 : TestCase :=
  { module := "Storage", test_Scenario := "Boot with replaced cable",
    test_Steps := "Replace cable and boot", pre_Requisite := "Spare cable",
    pass_Fail_Criteria := "System boots", expected_Result := "No disk error" }

/-- C2: the claim quantifies over every input batch; a batch containing the
same case twice defeats the deduplication, because each case is checked only
against the table as it stood before the call.  Starting from an empty table
and saving the batch `[caseC2, caseC2]` stores two identical rows. -/
theorem save_new_test_cases_batch_dup :
    save_new_test_cases [] [caseC2, caseC2] = [caseC2, caseC2] ∧
    ¬ (save_new_test_cases [] [caseC2, caseC2]).Nodup := by
  constructor
  · rfl
  · intro h
    rw [show save_new_test_cases [] [caseC2, caseC2] = [caseC2, caseC2] from rfl] at h
    simp at h

/-- C2 (amended): deduplication is performed only against the stored table,
so (a) the no-duplicate-rows invariant is preserved whenever the starting
table and the incoming batch are themselves duplicate-free, and (b) the
persistence step is idempotent for every table and batch: repeating the same
batch adds nothing, so two identical calls never produce two copies of a
case that was not already duplicated. -/
theorem save_new_test_cases_amended (T B : List TestCase)
    (hT : T.Nodup) (hB : B.Nodup) :
    (save_new_test_cases T B).Nodup ∧
    save_new_test_cases (save_new_test_cases T B) B = save_new_test_cases T B := by
  refine ⟨?_, ?_⟩
  · rw [save_new_test_cases_def, List.nodup_append]
    refine ⟨hT, hB.filter _, ?_⟩
    intro a haT haF
    rcases List.mem_filter.mp haF with ⟨_, hdec⟩
    exact (of_decide_eq_true hdec) haT
  · rw [save_new_test_cases_def T B, save_new_test_cases_def (T ++ _) B]
    have hnil : (B.filter fun c => decide (c ∉ T ++ B.filter fun c => decide (c ∉ T))) = [] := by
      rw [List.filter_eq_nil_iff]
      intro c hc
      simp only [decide_eq_true_eq, not_not]
      by_cases hmem : c ∈ T
      · exact List.mem_append_left _ hmem
      · exact List.mem_append_right _ (List.mem_filter.mpr ⟨hc, by simpa using hmem⟩)
    rw [hnil, List.append_nil]

/-- C2 witness: a concrete duplicate-free table and batch; the saved table is
duplicate-free and saving the same batch again changes nothing. -/
theorem save_new_test_cases_amended_witness :
    ([caseC2].Nodup ∧ [caseC2].Nodup) ∧
    (save_new_test_cases [caseC2] [caseC2]).Nodup ∧
    save_new_test_cases (save_new_test_cases [caseC2] [caseC2]) [caseC2] =
      save_new_test_cases [caseC2] [caseC2] :=
  ⟨⟨by decide, by decide⟩, save_new_test_cases_amended [caseC2] [caseC2] (by decide) (by decide)⟩

/-! ### Substring search and the generated-test-case parser

`parse_test_case` extracts labelled fields from generated text with, per
field F, the Python regex `F:\s*(.*?)\s*(?=(Test_Steps:|Pre_Requisite:|
Expected_Result:|Pass_Fail_Criteria:|$))` under `re.DOTALL`, the result being
passed through `.strip()`.  `re.search` anchors at the first occurrence of
the literal `F:`; the lazy capture with the lookahead ends the match at the
first position after the label where one of the four lookahead labels starts
(or at the end of the text); the surrounding `\s*` groups and the final
`.strip()` together trim the captured region.  The model below computes
exactly that: the trimmed text between the end of the first occurrence of
`F:` and the next occurrence of a lookahead label (or the end). -/

/-- Whitespace in the sense of Python `str.strip` and the regex class `\s`
(ASCII range; the generator strings involved are ASCII). -/
def isPySpace (c : Char) : Bool :=
  c == ' ' || c == '\t' || c == '\n' || c == '\r' || c == '\x0b' || c == '\x0c'

/-- Python `str.strip()` on the code-point list. -/
def stripChars (l : List Char) : List Char :=
  ((l.dropWhile isPySpace).reverse.dropWhile isPySpace).reverse

/-- Python `str.strip()`. -/
def pyStrip (s : String) : String :=
  String.mk (stripChars s.data)

/-- Splitting on a literal delimiter, left to right, non-overlapping — the
behavior of `re.split` for a metacharacter-free pattern.  The fuel argument
(instantiated with the text length, which every step strictly decreases)
keeps the recursion structural. -/
def splitOnListAux (delim : List Char) : List Char → List Char → Nat → List (List Char)
  | [], acc, _ => [acc.reverse]
  | c :: rest, acc, 0 => [acc.reverse ++ c :: rest]
  | c :: rest, acc, fuel + 1 =>
    if delim.isPrefixOf (c :: rest) then
      acc.reverse :: splitOnListAux delim (List.drop (delim.length - 1) rest) [] fuel
    else
      splitOnListAux delim rest (c :: acc) fuel

/-- Python `re.split(delim, s)` for a literal `delim`. -/
def pySplitOn (delim s : String) : List String :=
  (splitOnListAux delim.data s.data [] s.data.length).map String.mk

/-- First index at or after which `needle` occurs in `hay`, scanning left to
right (the anchoring behavior of `re.search` for a literal pattern). -/
def findSubAux (needle : List Char) : List Char → Nat → Option Nat
  | [], _ => none
  | c :: rest, i =>
    if needle.isPrefixOf (c :: rest) then some i else findSubAux needle rest (i + 1)

/-- Index of the first occurrence of `needle` in `hay`, if any. -/
def findSub (needle hay : String) : Option Nat :=
  findSubAux needle.data hay.data 0

/-- Python's `in` test on strings. -/
def containsSub (needle hay : String) : Bool :=
  (findSub needle hay).isSome

/-- Index of the first occurrence of `needle` in `hay` at or after index `a`. -/
def findSubFrom (needle hay : String) (a : Nat) : Option Nat :=
  (findSubAux needle.data (hay.data.drop a) 0).map (· + a)

/-- Position where the regex match ends: the first index at or after `a`
where one of `labels` starts, or the end of the text when none occurs. -/
def nextLabelStop (labels : List String) (hay : String) (a : Nat) : Nat :=
  labels.foldr
    (fun L acc =>
      match findSubFrom L hay a with
      | some p => min p acc
      | none => acc)
    hay.data.length

/-- The code-point slice `hay[a:b]`, trimmed (Python `.strip()`). -/
def sliceTrim (hay : String) (a b : Nat) : String :=
  String.mk (stripChars ((hay.data.drop a).take (b - a)))

/-- The four labels of the regex lookahead.  The source omits
`Test_Scenario:` from this alternation. -/
def lookaheadLabels : List String :=
  ["Test_Steps:", "Pre_Requisite:", "Expected_Result:", "Pass_Fail_Criteria:"]

/-- All five field labels; what the claim and the spec sentence describe as
"the next known label". -/
def allFieldLabels : List String :=
  ["Test_Scenario:", "Test_Steps:", "Pre_Requisite:", "Expected_Result:", "Pass_Fail_Criteria:"]

/-- One field of `parse_test_case`: empty when the label does not occur,
otherwise the trimmed text between the first occurrence of `label ++ ":"`
and the next stop position determined by `labels`. -/
def extractField (labels : List String) (label : String) (hay : String) : String :=
  match findSub (label ++ ":") hay with
  | none => ""
  | some i => sliceTrim hay (i + (label ++ ":").length) (nextLabelStop labels hay (i + (label ++ ":").length))

/-- The record produced by `parse_test_case` (the `fields` dict). -/
structure ParsedTC where
  test_Scenario : String
  test_Steps : String
  pre_Requisite : String
  expected_Result : String
  pass_Fail_Criteria : String
deriving DecidableEq, Repr

/-- `parse_test_case` as implemented: each field is extracted with the
four-label lookahead `lookaheadLabels`. -/
def parse_test_case (t : String) : ParsedTC :=
  { test_Scenario := extractField lookaheadLabels "Test_Scenario" t,
    test_Steps := extractField lookaheadLabels "Test_Steps" t,
    pre_Requisite := extractField lookaheadLabels "Pre_Requisite" t,
    expected_Result := extractField lookaheadLabels "Expected_Result" t,
    pass_Fail_Criteria := extractField lookaheadLabels "Pass_Fail_Criteria" t }

/-- `parse_test_case` as the claim describes it: capture runs to the next of
the five known field labels (so `Test_Scenario:` also acts as a stop). -/
def parse_test_case_as_claimed (t : String) : ParsedTC :=
  { test_Scenario := extractField allFieldLabels "Test_Scenario" t,
    test_Steps := extractField allFieldLabels "Test_Steps" t,
    pre_Requisite := extractField allFieldLabels "Pre_Requisite" t,
    expected_Result := extractField allFieldLabels "Expected_Result" t,
    pass_Fail_Criteria := extractField allFieldLabels "Pass_Fail_Criteria" t }

/-- A text on which the two differ: the capture for `Test_Steps` runs past a
later `Test_Scenario:` label because the lookahead does not stop there. -/
def textC9 : String := "Test_Steps: reboot the host\nTest_Scenario: disk check"

/-- C9: the implemented parser does not stop a capture at a following
`Test_Scenario:` label, while the claim requires every known field label to
end the capture; on `textC9` the `Test_Steps` field keeps the whole tail. -/
theorem parse_test_case_lookahead_gap :
    (parse_test_case textC9).test_Steps = "reboot the host\nTest_Scenario: disk check" ∧
    (parse_test_case_as_claimed textC9).test_Steps = "reboot the host" ∧
    parse_test_case textC9 ≠ parse_test_case_as_claimed textC9 := by
  refine ⟨by decide, by decide, by decide⟩

/-- Guard under which the implemented and claimed extraction agree for a
given field: no occurrence of `Test_Scenario:` at or after the start of the
field's captured region. -/
def scenarioSafe (label t : String) : Bool :=
  match findSub (label ++ ":") t with
  | none => true
  | some i => (findSubFrom "Test_Scenario:" t (i + (label ++ ":").length)).isNone

/-- C9 (amended): each field holds the trimmed text between the first
occurrence of its label and the next occurrence of one of the four lookahead
labels (or the end of the text); fields whose label is absent stay empty.
This matches the claimed five-label description exactly when no
`Test_Scenario:` label occurs after the field's content start, which holds
for conventionally ordered generator output. -/
theorem parse_field_amended (t label : String) (h : scenarioSafe label t = true) :
    extractField lookaheadLabels label t = extractField allFieldLabels label t ∧
    (findSub (label ++ ":") t = none → extractField lookaheadLabels label t = "") := by
  unfold scenarioSafe at h
  constructor
  · unfold extractField
    cases hf : findSub (label ++ ":") t with
    | none => rfl
    | some i =>
      rw [hf] at h
      have hn : findSubFrom "Test_Scenario:" t (i + (label ++ ":").length) = none :=
        Option.isNone_iff_eq_none.mp h
      have hstop : nextLabelStop allFieldLabels t (i + (label ++ ":").length) =
          nextLabelStop lookaheadLabels t (i + (label ++ ":").length) := by
        show (allFieldLabels.foldr _ _) = _
        rw [show allFieldLabels = "Test_Scenario:" :: lookaheadLabels from rfl]
        simp only [List.foldr_cons, hn]
        rfl
      show sliceTrim t (i + (label ++ ":").length)
            (nextLabelStop lookaheadLabels t (i + (label ++ ":").length)) =
          sliceTrim t (i + (label ++ ":").length)
            (nextLabelStop allFieldLabels t (i + (label ++ ":").length))
      rw [hstop]
  · intro hnone
    unfold extractField
    rw [hnone]

/-- C9 witness: on a conventionally ordered text the guard holds and the
implemented extraction equals the claimed one. -/
theorem parse_field_amended_witness :
    scenarioSafe "Test_Steps" "Test_Scenario: check disk\nTest_Steps: run fsck" = true ∧
    extractField lookaheadLabels "Test_Steps" "Test_Scenario: check disk\nTest_Steps: run fsck" =
      extractField allFieldLabels "Test_Steps" "Test_Scenario: check disk\nTest_Steps: run fsck" :=
  ⟨by decide,
   (parse_field_amended "Test_Scenario: check disk\nTest_Steps: run fsck" "Test_Steps" (by decide)).1⟩

/-! ### The text-output pipeline

The workflow is a two-node graph: `retrieve` (nearest-neighbor lookup in
the FAISS index, an external service modelled as an oracle returning the
`k = 1` document list) followed by `validate_or_generate_test_cases`.  The
similarity gate `is_similar(query, doc, threshold=0.6)` composes two
embedding-service calls with `cosine_similarity`; since the embedding model
is external, the gate outcome is modelled as a boolean oracle.  Calls to the
hosted language model are modelled by an oracle from the structured prompt
contents to `Except String String` (`Except.error e` standing for a raised
exception with `str(e) = e`). -/

/-- A retrieved defect document: `page_content` is the defect description,
with the solution and module carried in the metadata. -/
structure Doc where
  page_content : String
  solution : String
  module : String
deriving DecidableEq, Repr

/-- The structured contents of each language-model prompt issued by the
text-output variant. -/
inductive LlmCall where
  | explanation (error solution : String)
  | additionalCases (num : Nat) (error solution explanation existing : String)
  | fullSet (error solution explanation : String)
  | altSolution (error : String)
  | altTestCases (error solution : String)
deriving DecidableEq, Repr

/-- The external services of the text-output variant: the similarity gate at
threshold 0.6 and the language model. -/
structure Env where
  isSim : String → String → Bool
  llm : LlmCall → Except String String

/-- The transient per-request state threaded through the workflow. -/
structure AgentState where
  input : String
  context : List Doc

/-- The output of the validate/generate node: the response put into the
state, the persisted table after the call, and the language-model calls
performed (in order, including any call that raised). -/
structure NodeOut where
  response : String
  table : List TestCase
  calls : List LlmCall
deriving DecidableEq, Repr

/-- The not-found indicator produced on an empty retrieval or a gate
failure. -/
def errNotFound : String := "**Error**: The defect could not be found in the database."

/-- The catch-all error response around the validate/generate node. -/
def errProcessing (e : String) : String := "Error processing request: " ++ e

/-- The delimiter the prompts instruct the generator to place after each
test case, and on which its response is split. -/
def tcDelim : String := "\n### END TEST CASE ###\n"

/-- The quota of valid stored test cases per module. -/
def REQUIRED_TEST_CASE_COUNT : Nat := 4

/-- `get_csv_test_cases`: rows of the table whose `Module` matches and whose
five non-module fields are all non-empty after stripping, in table order. -/
def get_csv_test_cases (table : List TestCase) (module : String) : List TestCase :=
  (table.filter fun r => r.module == module).filter fun r =>
    pyStrip r.test_Scenario != "" && pyStrip r.test_Steps != "" &&
    pyStrip r.pre_Requisite != "" && pyStrip r.pass_Fail_Criteria != "" &&
    pyStrip r.expected_Result != ""

/-- The labelled block a test case is rendered as, both in the final output
(`format_tc`) and in the do-not-duplicate context of the supplement prompt
(the source repeats the identical f-string in both places). -/
def format_tc (tc : TestCase) : String :=
  "Test_Scenario: " ++ tc.test_Scenario ++ "\nTest_Steps: " ++ tc.test_Steps ++
  "\nPre_Requisite: " ++ tc.pre_Requisite ++ "\nExpected_Result: " ++ tc.expected_Result ++
  "\nPass_Fail_Criteria: " ++ tc.pass_Fail_Criteria

/-- The `existing_test_cases` context passed to the supplement prompt. -/
def existingStr (cases : List TestCase) : String :=
  String.intercalate "\n" (cases.map format_tc)

/-- The final text response assembled on the success path. -/
def formatResponse (error solution explanation : String) (cases : List TestCase) : String :=
  "**Error:**\n" ++ error ++ "\n\n**Solution:**\n" ++ solution ++
  "\n\n**Explanation:**\n" ++ explanation ++ "\n\n**Test Cases:**\n" ++
  String.intercalate "\n\n" (cases.map format_tc)

/-- The record assembled for a parsed generated case (the module comes from
the matched document, the five fields from the parse). -/
def mkGenCase (module raw : String) : TestCase :=
  { module := module,
    test_Scenario := (parse_test_case raw).test_Scenario,
    test_Steps := (parse_test_case raw).test_Steps,
    pre_Requisite := (parse_test_case raw).pre_Requisite,
    pass_Fail_Criteria := (parse_test_case raw).pass_Fail_Criteria,
    expected_Result := (parse_test_case raw).expected_Result }

/-- Post-processing of a generator response (already stripped): split on the
delimiter, strip each block, drop empty blocks, parse each block, and keep
exactly the blocks whose `Test_Scenario` field is non-empty. -/
def parseGeneratedCases (module response : String) : List TestCase :=
  (((pySplitOn tcDelim response).map pyStrip).filter fun s => s != "").filterMap
    fun raw =>
      if (parse_test_case raw).test_Scenario != "" then some (mkGenCase module raw) else none

/-- The number of response blocks that parsed to a non-empty scenario — the
quantity the quota law measures the final set size by. -/
def nonEmptyScenarioCount (response : String) : Nat :=
  ((((pySplitOn tcDelim response).map pyStrip).filter fun s => s != "").filter
    fun raw => (parse_test_case raw).test_Scenario != "").length

/-- `validate_or_generate_test_cases`, the sole decision node of the
workflow.  Mirrors the source: empty context or gate failure return the
not-found indicator; then the explanation is generated; then the stored
valid cases for the module are reconciled against the quota of 4; any
exception from a language-model call is caught and converted into the
catch-all error response, leaving the table unchanged. -/
def validate_or_generate_test_cases (env : Env) (table : List TestCase)
    (state : AgentState) : NodeOut :=
  match state.context with
  | [] => ⟨errNotFound, table, []⟩
  | context :: _ =>
    let error_message := state.input
    if env.isSim error_message context.page_content = false then
      ⟨errNotFound, table, []⟩
    else
      let solution := context.solution
      let module := context.module
      let explCall := LlmCall.explanation error_message solution
      match env.llm explCall with
      | Except.error e => ⟨errProcessing e, table, [explCall]⟩
      | Except.ok explanation =>
        let csv_test_cases := get_csv_test_cases table module
        if csv_test_cases ≠ [] ∧ csv_test_cases.length ≥ REQUIRED_TEST_CASE_COUNT then
          ⟨formatResponse error_message solution explanation csv_test_cases, table, [explCall]⟩
        else if csv_test_cases ≠ [] ∧ csv_test_cases.length < REQUIRED_TEST_CASE_COUNT then
          let num_to_generate := REQUIRED_TEST_CASE_COUNT - csv_test_cases.length
          let addCall := LlmCall.additionalCases num_to_generate error_message solution
            explanation (existingStr csv_test_cases)
          match env.llm addCall with
          | Except.error e => ⟨errProcessing e, table, [explCall, addCall]⟩
          | Except.ok raw =>
            let additional_cases := parseGeneratedCases module (pyStrip raw)
            let selected_cases := csv_test_cases ++ additional_cases
            let table2 :=
              if additional_cases ≠ [] then save_new_test_cases table additional_cases else table
            ⟨formatResponse error_message solution explanation selected_cases, table2,
             [explCall, addCall]⟩
        else
          let fullCall := LlmCall.fullSet error_message solution explanation
          match env.llm fullCall with
          | Except.error e => ⟨errProcessing e, table, [explCall, fullCall]⟩
          | Except.ok raw =>
            let selected_cases := parseGeneratedCases module (pyStrip raw)
            let table2 :=
              if selected_cases ≠ [] then save_new_test_cases table selected_cases else table
            ⟨formatResponse error_message solution explanation selected_cases, table2,
             [explCall, fullCall]⟩

/-- `auto_evaluate_solution` (text variant): a substring classifier on the
response string. -/
def auto_evaluate_solution (response : String) : Nat :=
  if containsSub "### END TEST CASE ###" response then 5
  else if containsSub "**Error**:" response then 1
  else 3

/-- `generate_alternative_solution`: two chained language-model calls with
no surrounding try/except — a raised exception propagates to the caller.
Returns the result (or propagated exception) together with the calls
performed. -/
def generate_alternative_solution (env : Env) (error_message : String) :
    Except String String × List LlmCall :=
  match env.llm (LlmCall.altSolution error_message) with
  | Except.error e => (Except.error e, [LlmCall.altSolution error_message])
  | Except.ok alternative_solution =>
    match env.llm (LlmCall.altTestCases error_message alternative_solution) with
    | Except.error e =>
      (Except.error e,
       [LlmCall.altSolution error_message, LlmCall.altTestCases error_message alternative_solution])
    | Except.ok alternative_test_cases =>
      (Except.ok ("**Alternative Solution (Generated):**\n" ++ alternative_solution ++
        "\n\n**Test Cases for Alternative Solution:**\n" ++ alternative_test_cases),
       [LlmCall.altSolution error_message, LlmCall.altTestCases error_message alternative_solution])

/-- One `agent.invoke`: the retrieve node fills the context with the
nearest-document list for the stripped input, then the validate/generate
node computes the response. -/
def run_workflow (env : Env) (retrieve : String → List Doc) (table : List TestCase)
    (error_message : String) : NodeOut :=
  validate_or_generate_test_cases env table
    ⟨pyStrip error_message, retrieve (pyStrip error_message)⟩

deriving instance DecidableEq for Except

/-- The observable outcome of `get_solution_autonomously`: final result (or
propagated exception), final table, language-model calls, and how many times
the workflow and the alternative-generation path were invoked. -/
structure RunOut where
  result : Except String String
  table : List TestCase
  llmCalls : List LlmCall
  agentInvokes : Nat
  altGenInvokes : Nat
deriving DecidableEq, Repr

/-- The retry loop of `get_solution_autonomously`, by remaining iterations.
With no iterations left the Python `return response` refers to the variable
left by a previous iteration (a `NameError` when none ran).  An iteration
invokes the workflow, scores the response, and returns on both branches of
the conditional — the `iteration += 1` after it is unreachable, so the
recursive case never recurses. -/
def gsaLoop (env : Env) (retrieve : String → List Doc) (error_message : String) :
    Nat → List TestCase → Option String → RunOut
  | 0, table, respVar =>
    { result :=
        match respVar with
        | some r => Except.ok r
        | none => Except.error "NameError: name response is not defined",
      table := table, llmCalls := [], agentInvokes := 0, altGenInvokes := 0 }
  | _ + 1, table, _ =>
    let w := run_workflow env retrieve table error_message
    let rating := auto_evaluate_solution w.response
    if rating < 3 then
      let g := generate_alternative_solution env error_message
      { result := g.1, table := w.table, llmCalls := w.calls ++ g.2,
        agentInvokes := 1, altGenInvokes := 1 }
    else
      { result := Except.ok w.response, table := w.table, llmCalls := w.calls,
        agentInvokes := 1, altGenInvokes := 0 }

/-- `get_solution_autonomously`: the loop entered with `max_iterations = 3`. -/
def get_solution_autonomously (env : Env) (retrieve : String → List Doc)
    (error_message : String) (table : List TestCase) : RunOut :=
  gsaLoop env retrieve error_message 3 table none

/-- `get_solution`, the public entry point, delegates to
`get_solution_autonomously`. -/
def get_solution (env : Env) (retrieve : String → List Doc)
    (error_message : String) (table : List TestCase) : RunOut :=
  get_solution_autonomously env retrieve error_message table

/-! ### Quota reconciliation (claims C5 and C6) -/

/-- A `filterMap` under a boolean guard keeps exactly the elements the guard
accepts. -/
theorem length_filterMap_guard {α β : Type} (p : α → Bool) (g : α → β) (l : List α) :
    (l.filterMap fun a => if p a then some (g a) else none).length = (l.filter p).length := by
  induction l with
  | nil => rfl
  | cons a l ih =>
    cases h : p a <;> simp [List.filterMap_cons, List.filter_cons, h, ih]

/-- The cases kept from a generator response are exactly the response blocks
that parsed to a non-empty scenario. -/
theorem parseGeneratedCases_length (module response : String) :
    (parseGeneratedCases module response).length = nonEmptyScenarioCount response := by
  unfold parseGeneratedCases nonEmptyScenarioCount
  exact length_filterMap_guard _ _ _

/-- C6: with at least 4 valid stored cases for the matched module, the node
issues only the explanation call (no test-case generation), leaves the
persisted table untouched, and renders exactly the stored valid set. -/
theorem quota_full_reuse (env : Env) (table : List TestCase) (input : String)
    (d : Doc) (rest : List Doc) (expl : String)
    (hSim : env.isSim input d.page_content = true)
    (hExpl : env.llm (LlmCall.explanation input d.solution) = Except.ok expl)
    (h4 : (get_csv_test_cases table d.module).length ≥ 4) :
    validate_or_generate_test_cases env table ⟨input, d :: rest⟩ =
      ⟨formatResponse input d.solution expl (get_csv_test_cases table d.module), table,
       [LlmCall.explanation input d.solution]⟩ := by
  have hne : get_csv_test_cases table d.module ≠ [] := by
    intro h
    rw [h] at h4
    simp at h4
  unfold validate_or_generate_test_cases
  simp only [hSim, Bool.true_eq_false, if_false, hExpl]
  rw [if_pos ⟨hne, h4⟩]

/-- A concrete environment for the C6 witness. -/
def envC6 : Env :=
  { isSim := fun _ _ => true, llm := fun _ => Except.ok "EXPL" }

/-- A defect document whose module matches `caseC2`. -/
def docStorage : Doc :=
  { page_content := "Disk read error on boot", solution := "Replace SATA cable",
    module := "Storage" }

/-- C6 witness: four valid stored cases; the node reuses them verbatim with
only the explanation call. -/
theorem quota_full_reuse_witness :
    validate_or_generate_test_cases envC6 [caseC2, caseC2, caseC2, caseC2]
        ⟨"Disk read error on boot", [docStorage]⟩ =
      ⟨formatResponse "Disk read error on boot" docStorage.solution "EXPL"
          (get_csv_test_cases [caseC2, caseC2, caseC2, caseC2] docStorage.module),
        [caseC2, caseC2, caseC2, caseC2],
        [LlmCall.explanation "Disk read error on boot" docStorage.solution]⟩ :=
  quota_full_reuse envC6 [caseC2, caseC2, caseC2, caseC2] "Disk read error on boot"
    docStorage [] "EXPL" rfl rfl (by decide)

/-- C5: with `n` valid stored cases, `0 < n < 4`, the node issues exactly one
supplement call requesting `4 - n` cases (beside the explanation call),
renders the stored set concatenated with the parsed new cases, persists
exactly the new cases (when any), and the final set size is `n` plus the
number of response blocks that parsed to a non-empty scenario. -/
theorem quota_partial_supplement (env : Env) (table : List TestCase) (input : String)
    (d : Doc) (rest : List Doc) (expl raw : String)
    (hSim : env.isSim input d.page_content = true)
    (hExpl : env.llm (LlmCall.explanation input d.solution) = Except.ok expl)
    (hpos : 0 < (get_csv_test_cases table d.module).length)
    (hlt : (get_csv_test_cases table d.module).length < 4)
    (hGen : env.llm (LlmCall.additionalCases (4 - (get_csv_test_cases table d.module).length)
        input d.solution expl (existingStr (get_csv_test_cases table d.module))) =
      Except.ok raw) :
    validate_or_generate_test_cases env table ⟨input, d :: rest⟩ =
      ⟨formatResponse input d.solution expl
          (get_csv_test_cases table d.module ++ parseGeneratedCases d.module (pyStrip raw)),
        (if parseGeneratedCases d.module (pyStrip raw) ≠ [] then
          save_new_test_cases table (parseGeneratedCases d.module (pyStrip raw)) else table),
        [LlmCall.explanation input d.solution,
         LlmCall.additionalCases (4 - (get_csv_test_cases table d.module).length) input
           d.solution expl (existingStr (get_csv_test_cases table d.module))]⟩ ∧
    (get_csv_test_cases table d.module ++ parseGeneratedCases d.module (pyStrip raw)).length =
      (get_csv_test_cases table d.module).length + nonEmptyScenarioCount (pyStrip raw) := by
  have hne : get_csv_test_cases table d.module ≠ [] := by
    intro h
    rw [h] at hpos
    simp at hpos
  constructor
  · unfold validate_or_generate_test_cases
    simp only [hSim, Bool.true_eq_false, if_false, hExpl, REQUIRED_TEST_CASE_COUNT]
    rw [if_neg (fun hc => absurd hc.2 (by omega)), if_pos ⟨hne, hlt⟩]
    rw [hGen]
  · rw [List.length_append, parseGeneratedCases_length]

/-- A generator response parsing to a single complete test case. -/
def rawC5 : String :=
  "Test_Scenario: Swap the cable\nTest_Steps: Replace and reboot\nPre_Requisite: Spare cable\nExpected_Result: Clean boot\nPass_Fail_Criteria: No errors logged"

/-- A concrete environment for the C5 witness: an explanation and a
single-case supplement response. -/
def envC5 : Env :=
  { isSim := fun _ _ => true,
    llm := fun c =>
      match c with
      | LlmCall.explanation _ _ => Except.ok "EXPL"
      | LlmCall.additionalCases _ _ _ _ _ => Except.ok rawC5
      | _ => Except.ok "" }

/-- C5 witness: one valid stored case, a supplement request for 3, one block
parsed with a non-empty scenario; the final set is the stored case plus the
parsed case. -/
theorem quota_partial_supplement_witness :
    validate_or_generate_test_cases envC5 [caseC2]
        ⟨"Disk read error on boot", [docStorage]⟩ =
      ⟨formatResponse "Disk read error on boot" docStorage.solution "EXPL"
          (get_csv_test_cases [caseC2] docStorage.module ++
            parseGeneratedCases docStorage.module (pyStrip rawC5)),
        (if parseGeneratedCases docStorage.module (pyStrip rawC5) ≠ [] then
          save_new_test_cases [caseC2] (parseGeneratedCases docStorage.module (pyStrip rawC5))
        else [caseC2]),
        [LlmCall.explanation "Disk read error on boot" docStorage.solution,
         LlmCall.additionalCases (4 - (get_csv_test_cases [caseC2] docStorage.module).length)
           "Disk read error on boot" docStorage.solution "EXPL"
           (existingStr (get_csv_test_cases [caseC2] docStorage.module))]⟩ ∧
    (get_csv_test_cases [caseC2] docStorage.module ++
        parseGeneratedCases docStorage.module (pyStrip rawC5)).length =
      (get_csv_test_cases [caseC2] docStorage.module).length +
        nonEmptyScenarioCount (pyStrip rawC5) :=
  quota_partial_supplement envC5 [caseC2] "Disk read error on boot" docStorage [] "EXPL" rawC5
    rfl rfl (by decide) (by decide) rfl

/-! ### The retry controller (claims C1, C7, C8) -/

/-- The single-shot evaluation the claim says the loop is observationally
equal to: one workflow invocation, one score, at most one
alternative-generation call. -/
def get_solution_single_shot (env : Env) (retrieve : String → List Doc)
    (error_message : String) (table : List TestCase) : RunOut :=
  let w := run_workflow env retrieve table error_message
  if auto_evaluate_solution w.response < 3 then
    let g := generate_alternative_solution env error_message
    { result := g.1, table := w.table, llmCalls := w.calls ++ g.2,
      agentInvokes := 1, altGenInvokes := 1 }
  else
    { result := Except.ok w.response, table := w.table, llmCalls := w.calls,
      agentInvokes := 1, altGenInvokes := 0 }

/-- C7: `get_solution_autonomously` equals the single-shot evaluation on
every input: the workflow is invoked exactly once, the alternative path at
most once, and the iteration bound is irrelevant — every positive fuel gives
the behavior of fuel 1. -/
theorem gsa_single_shot (env : Env) (retrieve : String → List Doc)
    (error_message : String) (table : List TestCase) :
    get_solution_autonomously env retrieve error_message table =
      get_solution_single_shot env retrieve error_message table ∧
    (get_solution_autonomously env retrieve error_message table).agentInvokes = 1 ∧
    (get_solution_autonomously env retrieve error_message table).altGenInvokes ≤ 1 ∧
    ∀ fuel : Nat, gsaLoop env retrieve error_message (fuel + 1) table none =
      gsaLoop env retrieve error_message 1 table none := by
  refine ⟨rfl, ?_, ?_, fun _ => rfl⟩ <;>
    · unfold get_solution_autonomously gsaLoop
      by_cases h : auto_evaluate_solution
          (run_workflow env retrieve table error_message).response < 3 <;>
        simp [h]

/-- A retriever over an empty defect store. -/
def retrieveEmpty : String → List Doc := fun _ => []

/-- A retriever that always returns the storage document. -/
def retrieveC1W : String → List Doc := fun _ => [docStorage]

/-- An environment whose gate rejects every candidate and whose model
answers every prompt with `ALT`. -/
def envC1 : Env :=
  { isSim := fun _ _ => false, llm := fun _ => Except.ok "ALT" }

/-- Alias environment for the C1 witness (gate rejecting, model healthy). -/
def envC1W : Env :=
  { isSim := fun _ _ => false, llm := fun _ => Except.ok "ALT" }

/-- C1 (amended): when the store returns nothing or the nearest match fails
the 0.6 gate, the workflow itself produces the not-found indicator with no
language-model calls and no table change; `get_solution` then scores that
response 1 and invokes the alternative-generation path, returning its output
(and its calls) instead of the not-found indicator. -/
theorem gate_failure_path (env : Env) (retrieve : String → List Doc)
    (table : List TestCase) (q : String)
    (hGate : ∀ d, (retrieve (pyStrip q)).head? = some d →
      env.isSim (pyStrip q) d.page_content = false) :
    (run_workflow env retrieve table q).response = errNotFound ∧
    (run_workflow env retrieve table q).calls = [] ∧
    (run_workflow env retrieve table q).table = table ∧
    (get_solution env retrieve q table).result = (generate_alternative_solution env q).1 ∧
    (get_solution env retrieve q table).llmCalls = (generate_alternative_solution env q).2 ∧
    (get_solution env retrieve q table).altGenInvokes = 1 := by
  have hw : run_workflow env retrieve table q = ⟨errNotFound, table, []⟩ := by
    unfold run_workflow validate_or_generate_test_cases
    cases hr : retrieve (pyStrip q) with
    | nil => rfl
    | cons d ds =>
      have := hGate d (by rw [hr]; rfl)
      simp [this]
  have hrate : auto_evaluate_solution errNotFound = 1 := by decide
  have hg : get_solution env retrieve q table =
      { result := (generate_alternative_solution env q).1, table := table,
        llmCalls := (generate_alternative_solution env q).2,
        agentInvokes := 1, altGenInvokes := 1 } := by
    show gsaLoop env retrieve q 3 table none = _
    unfold gsaLoop
    simp [hw, hrate]
  exact ⟨by rw [hw], by rw [hw], by rw [hw], by rw [hg], by rw [hg], by rw [hg]⟩

/-- C1 witness: a gate that rejects every candidate; the workflow yields the
not-found indicator without calls, and the autonomous wrapper hands back the
alternative-generation output. -/
theorem gate_failure_path_witness :
    (run_workflow envC1W retrieveC1W [] "fan stuck").response = errNotFound ∧
    (get_solution envC1W retrieveC1W "fan stuck" []).result =
      (generate_alternative_solution envC1W "fan stuck").1 :=
  ⟨(gate_failure_path envC1W retrieveC1W [] "fan stuck" (by intro d h; cases h; rfl)).1,
   (gate_failure_path envC1W retrieveC1W [] "fan stuck" (by intro d h; cases h; rfl)).2.2.2.1⟩

/-- C1 counterexample: on an empty store the claim demands the not-found
indicator and zero generation calls, but `get_solution` answers with the
alternative-solution response after two generation calls. -/
theorem gate_failure_claim_false :
    (get_solution envC1 retrieveEmpty "disk failure" []).result ≠ Except.ok errNotFound ∧
    (get_solution envC1 retrieveEmpty "disk failure" []).llmCalls ≠ [] := by
  constructor
  · intro h
    have : (get_solution envC1 retrieveEmpty "disk failure" []).result =
        Except.ok ("**Alternative Solution (Generated):**\nALT\n\n**Test Cases for Alternative Solution:**\nALT") := by
      decide
    rw [this] at h
    exact absurd (Except.ok.inj h) (by decide)
  · intro h
    have : (get_solution envC1 retrieveEmpty "disk failure" []).llmCalls =
        [LlmCall.altSolution "disk failure", LlmCall.altTestCases "disk failure" "ALT"] := by
      decide
    rw [this] at h
    simp at h

/-- C8 (amended): the validate/generate node converts a gate failure into
the not-found response and any exception raised inside it into the catch-all
error response — shown here for an exception in the explanation call and in
the supplement call — leaving the table untouched; but the
alternative-generation path has no such guard (see the counterexample for
the propagation). -/
theorem node_catches_exceptions :
    (∀ (env : Env) (table : List TestCase) (input : String) (d : Doc) (rest : List Doc)
        (e : String),
      env.isSim input d.page_content = true →
      env.llm (LlmCall.explanation input d.solution) = Except.error e →
      validate_or_generate_test_cases env table ⟨input, d :: rest⟩ =
        ⟨errProcessing e, table, [LlmCall.explanation input d.solution]⟩) ∧
    (∀ (env : Env) (table : List TestCase) (input : String) (d : Doc) (rest : List Doc)
        (expl e : String),
      env.isSim input d.page_content = true →
      env.llm (LlmCall.explanation input d.solution) = Except.ok expl →
      0 < (get_csv_test_cases table d.module).length →
      (get_csv_test_cases table d.module).length < 4 →
      env.llm (LlmCall.additionalCases (4 - (get_csv_test_cases table d.module).length) input
        d.solution expl (existingStr (get_csv_test_cases table d.module))) = Except.error e →
      validate_or_generate_test_cases env table ⟨input, d :: rest⟩ =
        ⟨errProcessing e, table,
         [LlmCall.explanation input d.solution,
          LlmCall.additionalCases (4 - (get_csv_test_cases table d.module).length) input
            d.solution expl (existingStr (get_csv_test_cases table d.module))]⟩) := by
  constructor
  · intro env table input d rest e hSim hExpl
    unfold validate_or_generate_test_cases
    simp only [hSim, Bool.true_eq_false, if_false, hExpl]
  · intro env table input d rest expl e hSim hExpl hpos hlt hGen
    have hne : get_csv_test_cases table d.module ≠ [] := by
      intro h
      rw [h] at hpos
      simp at hpos
    unfold validate_or_generate_test_cases
    simp only [hSim, Bool.true_eq_false, if_false, hExpl, REQUIRED_TEST_CASE_COUNT]
    rw [if_neg (fun hc => absurd hc.2 (by omega)), if_pos ⟨hne, hlt⟩]
    rw [hGen]

/-- An environment whose explanation call raises. -/
def envC8W : Env :=
  { isSim := fun _ _ => true, llm := fun _ => Except.error "APIConnectionError" }

/-- C8 witness: the node turns the raised explanation-call exception into
the catch-all error response. -/
theorem node_catches_exceptions_witness :
    validate_or_generate_test_cases envC8W [] ⟨"fan stuck", [docStorage]⟩ =
      ⟨errProcessing "APIConnectionError", [],
       [LlmCall.explanation "fan stuck" docStorage.solution]⟩ :=
  node_catches_exceptions.1 envC8W [] "fan stuck" docStorage [] "APIConnectionError" rfl rfl

/-- An environment whose alternative-solution call raises while everything
else succeeds, with an empty retrieval forcing the alternative path. -/
def envC8 : Env :=
  { isSim := fun _ _ => false,
    llm := fun c =>
      match c with
      | LlmCall.altSolution _ => Except.error "ReadTimeout"
      | _ => Except.ok "x" }

/-- C8 counterexample: the claim says no exception from an external call
escapes `get_solution`, but an exception in the alternative-solution call is
uncaught and propagates past the pipeline boundary. -/
theorem alt_path_exception_propagates :
    (get_solution envC8 retrieveEmpty "fan stuck" []).result = Except.error "ReadTimeout" := by
  decide

/-! ### The JSON-output variant

The `TabularFormat` variant carries generated test cases as JSON objects
(Python dicts), returns a response dict rather than a text block, and asks
the generator for the five field keys only — `Module` is not among them.
Dicts of string keys and values are modelled as association lists, with
Python `d[k]` as a lookup that raises `KeyError(k)` when absent.  `json.loads`
is modelled as an oracle producing either a parse failure or an array of
such objects (the shape the prompt demands). -/

/-- A Python dict of string keys and values, as produced by `json.loads` on
an object of the prompt's shape. -/
abbrev CaseDict := List (String × String)

/-- Python `str(KeyError(k))`: the key in single quotes. -/
def keyErrorStr (k : String) : String :=
  String.singleton (Char.ofNat 39) ++ k ++ String.singleton (Char.ofNat 39)

/-- Python `case[k]` on a dict: the value, or a raised `KeyError`. -/
def dictGet (case : CaseDict) (k : String) : Except String String :=
  match case.find? fun kv => kv.1 == k with
  | some kv => Except.ok kv.2
  | none => Except.error (keyErrorStr k)

/-- The dict rendering of a stored test case (`tc_dict` in
`get_csv_test_cases`: the five fields, then `Module`). -/
def toCaseDict (tc : TestCase) : CaseDict :=
  [("Test_Scenario", tc.test_Scenario), ("Test_Steps", tc.test_Steps),
   ("Pre_Requisite", tc.pre_Requisite), ("Pass_Fail_Criteria", tc.pass_Fail_Criteria),
   ("Expected_Result", tc.expected_Result), ("Module", tc.module)]

/-- The six dict lookups the duplicate mask of `save_new_test_cases`
performs on an incoming case, in evaluation order (`Module` first); the
first missing key raises. -/
def caseToRow (case : CaseDict) : Except String TestCase :=
  match dictGet case "Module" with
  | Except.error e => Except.error e
  | Except.ok m =>
    match dictGet case "Test_Scenario" with
    | Except.error e => Except.error e
    | Except.ok sc =>
      match dictGet case "Test_Steps" with
      | Except.error e => Except.error e
      | Except.ok st =>
        match dictGet case "Pre_Requisite" with
        | Except.error e => Except.error e
        | Except.ok pr =>
          match dictGet case "Pass_Fail_Criteria" with
          | Except.error e => Except.error e
          | Except.ok pf =>
            match dictGet case "Expected_Result" with
            | Except.error e => Except.error e
            | Except.ok er =>
              Except.ok { module := m, test_Scenario := sc, test_Steps := st,
                          pre_Requisite := pr, pass_Fail_Criteria := pf, expected_Result := er }

/-- The loop of the JSON-variant `save_new_test_cases`: each incoming dict is
compared (by its six keys) against the unchanged stored table; a raised
`KeyError` aborts the whole call before anything is appended. -/
def saveJsonGo (table : List TestCase) : List CaseDict → List TestCase → Except String (List TestCase)
  | [], acc => Except.ok (table ++ acc.reverse)
  | case :: rest, acc =>
    match caseToRow case with
    | Except.error e => Except.error e
    | Except.ok row =>
      if (table.filter fun r => isDuplicateOf r row).isEmpty then
        saveJsonGo table rest (row :: acc)
      else
        saveJsonGo table rest acc

/-- `save_new_test_cases` of the JSON variant, over dict-shaped cases. -/
def save_new_test_cases_json (table : List TestCase) (new_cases : List CaseDict) :
    Except String (List TestCase) :=
  saveJsonGo table new_cases []

/-- The structured contents of each language-model prompt of the JSON
variant (the do-not-duplicate context is the `json.dumps` of the existing
cases, carried here as the case list itself). -/
inductive LlmCallJ where
  | explanation (error solution : String)
  | additionalCases (num : Nat) (error solution explanation : String) (existing : List CaseDict)
  | fullSet (error solution explanation : String)
  | altSolution (error : String)
  | altTestCases (error solution : String)
deriving DecidableEq, Repr

/-- External services of the JSON variant: gate, model, and `json.loads`
(restricted to the array-of-objects shape the prompt demands; a parse
failure models `json.JSONDecodeError`). -/
structure EnvJ where
  isSim : String → String → Bool
  llm : LlmCallJ → Except String String
  jsonLoads : String → Except String (List CaseDict)

/-- The response dict of the JSON variant: either an error dict (with only
an `Error` key, hence no `TestCases` key), the assembled result dict, or the
alternative-solution dict. -/
inductive RespJ where
  | errDict (msg : String)
  | resultDict (error solution explanation : String) (testCases : List CaseDict)
  | altDict (alternativeSolution : String) (testCases : List CaseDict)
deriving DecidableEq, Repr

/-- Node output of the JSON variant. -/
structure NodeOutJ where
  response : RespJ
  table : List TestCase
  calls : List LlmCallJ
deriving DecidableEq, Repr

/-- `validate_or_generate_test_cases` of the JSON variant.  Same gate and
quota logic as the text variant, but generated cases are `json.loads`
output used as-is (no per-field parsing, no empty-scenario filtering), and a
`KeyError` raised while persisting is caught by the outer catch-all, which
returns the generic error dict. -/
def validate_or_generate_test_cases_json (env : EnvJ) (table : List TestCase)
    (state : AgentState) : NodeOutJ :=
  match state.context with
  | [] => ⟨RespJ.errDict errNotFound, table, []⟩
  | context :: _ =>
    let error_message := state.input
    if env.isSim error_message context.page_content = false then
      ⟨RespJ.errDict errNotFound, table, []⟩
    else
      let solution := context.solution
      let module := context.module
      let explCall := LlmCallJ.explanation error_message solution
      match env.llm explCall with
      | Except.error e => ⟨RespJ.errDict (errProcessing e), table, [explCall]⟩
      | Except.ok explanation =>
        let csv_test_cases := get_csv_test_cases table module
        if csv_test_cases ≠ [] ∧ csv_test_cases.length ≥ REQUIRED_TEST_CASE_COUNT then
          ⟨RespJ.resultDict error_message solution explanation (csv_test_cases.map toCaseDict),
           table, [explCall]⟩
        else if csv_test_cases ≠ [] ∧ csv_test_cases.length < REQUIRED_TEST_CASE_COUNT then
          let addCall := LlmCallJ.additionalCases
            (REQUIRED_TEST_CASE_COUNT - csv_test_cases.length) error_message solution
            explanation (csv_test_cases.map toCaseDict)
          match env.llm addCall with
          | Except.error e => ⟨RespJ.errDict (errProcessing e), table, [explCall, addCall]⟩
          | Except.ok raw =>
            let additional_cases :=
              match env.jsonLoads (pyStrip raw) with
              | Except.error _ => []
              | Except.ok cs => cs
            let selected_cases := csv_test_cases.map toCaseDict ++ additional_cases
            if additional_cases ≠ [] then
              match save_new_test_cases_json table additional_cases with
              | Except.error e => ⟨RespJ.errDict (errProcessing e), table, [explCall, addCall]⟩
              | Except.ok table2 =>
                ⟨RespJ.resultDict error_message solution explanation selected_cases, table2,
                 [explCall, addCall]⟩
            else
              ⟨RespJ.resultDict error_message solution explanation selected_cases, table,
               [explCall, addCall]⟩
        else
          let fullCall := LlmCallJ.fullSet error_message solution explanation
          match env.llm fullCall with
          | Except.error e => ⟨RespJ.errDict (errProcessing e), table, [explCall, fullCall]⟩
          | Except.ok raw =>
            let selected_cases :=
              match env.jsonLoads (pyStrip raw) with
              | Except.error _ => []
              | Except.ok cs => cs
            if selected_cases ≠ [] then
              match save_new_test_cases_json table selected_cases with
              | Except.error e => ⟨RespJ.errDict (errProcessing e), table, [explCall, fullCall]⟩
              | Except.ok table2 =>
                ⟨RespJ.resultDict error_message solution explanation selected_cases, table2,
                 [explCall, fullCall]⟩
            else
              ⟨RespJ.resultDict error_message solution explanation selected_cases, table,
               [explCall, fullCall]⟩

/-- `auto_evaluate_solution` of the JSON variant: 5 when the response dict
has a `TestCases` key holding a non-empty list, and 1 in every other case
— the source has no branch returning 3. -/
def auto_evaluate_solution_json : RespJ → Nat
  | RespJ.errDict _ => 1
  | RespJ.resultDict _ _ _ tcs => if tcs.length > 0 then 5 else 1
  | RespJ.altDict _ tcs => if tcs.length > 0 then 5 else 1

/-- C4 counterexample: a result dict whose `TestCases` list is empty (the
JSON variant produces exactly this when generation parses to nothing) is
neither a carrier of completed test cases nor the explicit not-found error,
so the claim demands score 3 — the code returns 1. -/
theorem auto_evaluate_json_claim_false :
    auto_evaluate_solution_json (RespJ.resultDict "e" "s" "x" []) = 1 ∧
    auto_evaluate_solution_json (RespJ.resultDict "e" "s" "x" []) ≠ 3 := by
  decide

/-- C4 (amended): the text-variant scorer returns 5 on any response carrying
the end-of-test-case delimiter, 1 on the not-found indicator, 3 otherwise;
the JSON-variant scorer returns 5 exactly on a response whose `TestCases`
list is non-empty and 1 in every other case — it never returns 3. -/
theorem auto_evaluate_amended :
    (∀ s : String, containsSub "### END TEST CASE ###" s = true →
      auto_evaluate_solution s = 5) ∧
    auto_evaluate_solution errNotFound = 1 ∧
    (∀ (e s x : String) (tcs : List CaseDict), tcs ≠ [] →
      auto_evaluate_solution_json (RespJ.resultDict e s x tcs) = 5) ∧
    auto_evaluate_solution_json (RespJ.errDict errNotFound) = 1 ∧
    (∀ r : RespJ, auto_evaluate_solution_json r ≠ 3) := by
  refine ⟨?_, by decide, ?_, rfl, ?_⟩
  · intro s h
    unfold auto_evaluate_solution
    rw [if_pos h]
  · intro e s x tcs h
    show (if tcs.length > 0 then 5 else 1) = 5
    rw [if_pos (by simpa [List.length_pos] using h)]
  · intro r
    cases r with
    | errDict m => simp [auto_evaluate_solution_json]
    | resultDict e s x tcs =>
      show ¬ (if tcs.length > 0 then 5 else 1) = 3
      by_cases h0 : tcs.length > 0 <;> simp [h0]
    | altDict a tcs =>
      show ¬ (if tcs.length > 0 then 5 else 1) = 3
      by_cases h0 : tcs.length > 0 <;> simp [h0]

/-- C4 witness: concrete inputs for the hypotheses of the amended scorer
description. -/
theorem auto_evaluate_amended_witness :
    auto_evaluate_solution ("x" ++ tcDelim) = 5 ∧
    auto_evaluate_solution_json
      (RespJ.resultDict "e" "s" "x" [[("Test_Scenario", "S")]]) = 5 :=
  ⟨auto_evaluate_amended.1 ("x" ++ tcDelim) (by decide),
   auto_evaluate_amended.2.2.1 "e" "s" "x" [[("Test_Scenario", "S")]] (by simp)⟩

/-- A dict without a `Module` key raises `KeyError(Module)` on the first
lookup of the duplicate mask, aborting persistence before anything is
stored. -/
theorem save_json_no_module (table : List TestCase) (c : CaseDict) (cs : List CaseDict)
    (h : (c.find? fun kv => kv.1 == "Module") = none) :
    save_new_test_cases_json table (c :: cs) = Except.error (keyErrorStr "Module") := by
  unfold save_new_test_cases_json saveJsonGo caseToRow dictGet
  rw [h]

/-- C10: in the JSON variant, with fewer than 4 valid stored cases and a
generator response that parses to a non-empty array of objects carrying only
the five prompted keys (no `Module`), persistence raises `KeyError(Module)`,
the catch-all converts the request into the generic error dict, and the
stored table is unchanged. -/
theorem json_module_keyerror (env : EnvJ) (table : List TestCase) (input : String)
    (d : Doc) (rest : List Doc) (expl raw : String) (cs : List CaseDict)
    (hSim : env.isSim input d.page_content = true)
    (hExpl : env.llm (LlmCallJ.explanation input d.solution) = Except.ok expl)
    (hlt : (get_csv_test_cases table d.module).length < 4)
    (hAdd : env.llm (LlmCallJ.additionalCases (4 - (get_csv_test_cases table d.module).length)
        input d.solution expl ((get_csv_test_cases table d.module).map toCaseDict)) =
      Except.ok raw)
    (hFull : env.llm (LlmCallJ.fullSet input d.solution expl) = Except.ok raw)
    (hLoads : env.jsonLoads (pyStrip raw) = Except.ok cs)
    (hne : cs ≠ [])
    (hNoModule : ∀ c ∈ cs, (c.find? fun kv => kv.1 == "Module") = none) :
    (validate_or_generate_test_cases_json env table ⟨input, d :: rest⟩).response =
      RespJ.errDict (errProcessing (keyErrorStr "Module")) ∧
    (validate_or_generate_test_cases_json env table ⟨input, d :: rest⟩).table = table := by
  obtain ⟨c, cs', rfl⟩ : ∃ c cs', cs = c :: cs' := by
    cases cs with
    | nil => exact absurd rfl hne
    | cons c cs' => exact ⟨c, cs', rfl⟩
  have hsave : save_new_test_cases_json table (c :: cs') =
      Except.error (keyErrorStr "Module") :=
    save_json_no_module table c cs' (hNoModule c (List.mem_cons_self c cs'))
  by_cases hcsv : get_csv_test_cases table d.module = []
  · have hnode : validate_or_generate_test_cases_json env table ⟨input, d :: rest⟩ =
        ⟨RespJ.errDict (errProcessing (keyErrorStr "Module")), table,
         [LlmCallJ.explanation input d.solution, LlmCallJ.fullSet input d.solution expl]⟩ := by
      unfold validate_or_generate_test_cases_json
      simp only [hSim, Bool.true_eq_false, if_false, hExpl, REQUIRED_TEST_CASE_COUNT]
      rw [if_neg (fun hc => hc.1 hcsv), if_neg (fun hc => hc.1 hcsv)]
      simp only [hFull, hLoads]
      rw [if_pos (by simp : (c :: cs' : List CaseDict) ≠ [])]
      rw [hsave]
    rw [hnode]
    exact ⟨rfl, rfl⟩
  · have hnode : validate_or_generate_test_cases_json env table ⟨input, d :: rest⟩ =
        ⟨RespJ.errDict (errProcessing (keyErrorStr "Module")), table,
         [LlmCallJ.explanation input d.solution,
          LlmCallJ.additionalCases (4 - (get_csv_test_cases table d.module).length) input
            d.solution expl ((get_csv_test_cases table d.module).map toCaseDict)]⟩ := by
      unfold validate_or_generate_test_cases_json
      simp only [hSim, Bool.true_eq_false, if_false, hExpl, REQUIRED_TEST_CASE_COUNT]
      rw [if_neg (fun hc => absurd hc.2 (by omega)), if_pos ⟨hcsv, hlt⟩]
      simp only [hAdd, hLoads]
      rw [if_pos (by simp : (c :: cs' : List CaseDict) ≠ [])]
      rw [hsave]
    rw [hnode]
    exact ⟨rfl, rfl⟩

/-- A five-key generated case dict, as the JSON prompt demands. -/
def caseDictNoModule : CaseDict :=
  [("Test_Scenario", "Swap the cable"), ("Test_Steps", "Replace and reboot"),
   ("Pre_Requisite", "Spare cable"), ("Expected_Result", "Clean boot"),
   ("Pass_Fail_Criteria", "No errors logged")]

/-- A concrete JSON-variant environment whose generation response parses to
one five-key object. -/
def envC10 : EnvJ :=
  { isSim := fun _ _ => true,
    llm := fun c =>
      match c with
      | LlmCallJ.explanation _ _ => Except.ok "EXPL"
      | _ => Except.ok "RAW",
    jsonLoads := fun _ => Except.ok [caseDictNoModule] }

/-- C10 witness: an empty stored table and a single five-key generated case;
the node answers with the generic error dict and stores nothing. -/
theorem json_module_keyerror_witness :
    (validate_or_generate_test_cases_json envC10 [] ⟨"fan stuck", [docStorage]⟩).response =
      RespJ.errDict (errProcessing (keyErrorStr "Module")) ∧
    (validate_or_generate_test_cases_json envC10 [] ⟨"fan stuck", [docStorage]⟩).table = [] :=
  json_module_keyerror envC10 [] "fan stuck" docStorage [] "EXPL" "RAW" [caseDictNoModule]
    rfl rfl (by decide) rfl rfl rfl (by simp) (by decide)

/-! ### Cosine similarity (claim C3)

The first script variant computes
`np.dot(vec1, vec2) / (np.linalg.norm(vec1)) * (np.linalg.norm(vec2))`:
by left-to-right evaluation this divides the dot product by the first norm
and then multiplies by the second, while the other two variants use the
standard closed form with both norms in the denominator.  Floating-point
arithmetic is modelled over the reals. -/

noncomputable section

/-- `np.dot` on two vectors of the same length. -/
def dotp : List ℝ → List ℝ → ℝ
  | x :: xs, y :: ys => x * y + dotp xs ys
  | _, _ => 0

/-- `np.linalg.norm`: the Euclidean norm. -/
def norm2 (v : List ℝ) : ℝ := Real.sqrt (dotp v v)

/-- The first script variant of `cosine_similarity`. -/
def cosine_similarity_v1 (a b : List ℝ) : ℝ := dotp a b / norm2 a * norm2 b

/-- The `cosine_similarity` of the other variants: the standard closed
form. -/
def cosine_similarity_std (a b : List ℝ) : ℝ := dotp a b / (norm2 a * norm2 b)

end

/-- C3 counterexample: the vectors `[1, 0]` and `[2, 0]` have nonzero norms,
yet the first variant returns `2 / 1 * 2 = 4` while the standard form
returns `2 / (1 * 2) = 1`. -/
theorem cosine_v1_claim_false :
    norm2 [(1 : ℝ), 0] ≠ 0 ∧ norm2 [(2 : ℝ), 0] ≠ 0 ∧
    cosine_similarity_v1 [(1 : ℝ), 0] [2, 0] ≠ cosine_similarity_std [(1 : ℝ), 0] [2, 0] := by
  have hd : dotp [(1 : ℝ), 0] [2, 0] = 2 := by norm_num [dotp]
  have h1 : norm2 [(1 : ℝ), 0] = 1 := by
    unfold norm2
    rw [show dotp [(1 : ℝ), 0] [(1 : ℝ), 0] = 1 by norm_num [dotp]]
    exact Real.sqrt_one
  have h2 : norm2 [(2 : ℝ), 0] = 2 := by
    unfold norm2
    rw [show dotp [(2 : ℝ), 0] [(2 : ℝ), 0] = 4 by norm_num [dotp]]
    rw [show (4 : ℝ) = 2 ^ 2 by norm_num]
    exact Real.sqrt_sq (by norm_num)
  refine ⟨by rw [h1]; norm_num, by rw [h2]; norm_num, ?_⟩
  unfold cosine_similarity_v1 cosine_similarity_std
  rw [hd, h1, h2]
  norm_num

/-- C3 (amended): the first variant agrees with the standard closed form
exactly on the inputs where the regrouping is harmless; in particular, for
every pair of vectors whose second vector has norm 1 (as holds for
normalized embeddings) the two coincide, since both reduce to
`dot / ‖a‖`. -/
theorem cosine_v1_amended (a b : List ℝ) (hb : norm2 b = 1) :
    cosine_similarity_v1 a b = cosine_similarity_std a b := by
  unfold cosine_similarity_v1 cosine_similarity_std
  rw [hb, mul_one, mul_one]

/-- C3 witness: a concrete unit-norm second vector. -/
theorem cosine_v1_amended_witness :
    norm2 [(0 : ℝ), 1] = 1 ∧
    cosine_similarity_v1 [(3 : ℝ), 4] [0, 1] = cosine_similarity_std [(3 : ℝ), 4] [0, 1] := by
  have hb : norm2 [(0 : ℝ), 1] = 1 := by
    unfold norm2
    rw [show dotp [(0 : ℝ), 1] [(0 : ℝ), 1] = 1 by norm_num [dotp]]
    exact Real.sqrt_one
  exact ⟨hb, cosine_v1_amended [(3 : ℝ), 4] [0, 1] hb⟩
